import Mathlib

/-!
Verification model of the DRM display backend (`src/backend/drm/drm.c`).

The C code is shallowly embedded: each C function that the claims touch is
translated to an executable Lean definition, with the hardware (libdrm) call
results supplied as explicit inputs.  Machine integers are modelled as `Nat`
(the bitmask arithmetic `1 << j` on CRTC indices never approaches the width
of the C `int` for real hardware, so no wrap-around modelling is needed).
-/

namespace Drm

/-- `drmModeModeInfo`, restricted to the fields this file reads plus enough
extra payload (`clock`, `name`) that structural equality (`memcmp` in
`select_mode`'s `"current"` branch) is strictly finer than agreement on
width/height/refresh. -/
structure drmModeModeInfo where
  clock : Nat
  hdisplay : Nat
  vdisplay : Nat
  vrefresh : Nat
  name : String
deriving DecidableEq, Repr, Inhabited

/-- `drmModeCrtc`: the fields used by `wlr_drm_display_free`'s restore call
and by `select_mode`'s `"current"` branch. -/
structure drmModeCrtc where
  crtc_id : Nat
  buffer_id : Nat
  x : Nat
  y : Nat
  mode : drmModeModeInfo
deriving DecidableEq, Repr

/-- Result of `select_mode`: a pointer to a mode in the list, `NULL`, or the
`assert(0)` hit on the `"current"`-without-match path. -/
inductive SelectRes where
  | found (m : drmModeModeInfo)
  | none
  | fatal
deriving DecidableEq, Repr

/-- Digit-run scanner underlying the `%u` conversion: consumes the longest
leading run of decimal digits into the accumulator. -/
def parseDigitsAux : Nat → List Char → Nat × List Char
  | acc, [] => (acc, [])
  | acc, c :: rest =>
    if c.isDigit then parseDigitsAux (10 * acc + (c.toNat - 48)) rest
    else (acc, c :: rest)

/-- One `%u` conversion: fails (`none`) when the input does not start with a
decimal digit, otherwise returns the value of the longest leading digit run
and the unconsumed rest.  (The request grammar documented for the backend has
no leading whitespace or signs, so those `scanf` niceties are not modelled.) -/
def parseDigits : List Char → Option (Nat × List Char)
  | [] => Option.none
  | c :: rest =>
    if c.isDigit then Option.some (parseDigitsAux (c.toNat - 48) rest)
    else Option.none

/-- `sscanf(str, "%ux%u@%u", &width, &height, &rate)` exactly as `select_mode`
consumes it: the result is `some (width, height, rate)` when the conversion
count is 2 or 3, and `none` otherwise (`select_mode` rejects counts other than
2 and 3).  A count of 2 leaves `rate` at its initialisation value 0, as in the
C, and trailing unconsumed characters are ignored, as `sscanf` ignores them. -/
def sscanf_mode (str : String) : Option (Nat × Nat × Nat) :=
  match parseDigits str.data with
  | Option.none => Option.none
  | Option.some (width, rest) =>
    match rest with
    | 'x' :: rest2 =>
      match parseDigits rest2 with
      | Option.none => Option.none
      | Option.some (height, rest3) =>
        match rest3 with
        | '@' :: rest4 =>
          match parseDigits rest4 with
          | Option.some (rate, _) => Option.some (width, height, rate)
          | Option.none => Option.some (width, height, 0)
        | _ => Option.some (width, height, 0)
    | _ => Option.none

/-- `select_mode(num_modes, modes, old_crtc, str)`.  The C declares the mode
array with `[static num_modes]` and every caller passes a nonempty list, so
the `"preferred"` branch's `&modes[0]` is rendered with `headD default`;
theorems about that branch carry an explicit nonemptiness hypothesis. -/
def select_mode (modes : List drmModeModeInfo) (old_crtc : Option drmModeCrtc)
    (str : String) : SelectRes :=
  if str = "preferred" then
    SelectRes.found (modes.headD default)
  else if str = "current" then
    match old_crtc with
    | Option.none => SelectRes.none
    | Option.some crtc =>
      match modes.find? (fun m => m = crtc.mode) with
      | Option.some m => SelectRes.found m
      | Option.none => SelectRes.fatal
  else
    match sscanf_mode str with
    | Option.none => SelectRes.none
    | Option.some (width, height, rate) =>
      match modes.find? (fun m =>
          m.hdisplay == width && m.vdisplay == height &&
          (rate == 0 || m.vrefresh == rate)) with
      | Option.some m => SelectRes.found m
      | Option.none => SelectRes.none

/-- Spec-side rendering of §4.4's `"current"` clause, written from the spec's
words: the first mode structurally equal to the snapshot's mode; absence of a
match is the documented unreachable invariant violation. -/
def specCurrentSelect : List drmModeModeInfo → drmModeModeInfo → SelectRes
  | [], _ => SelectRes.fatal
  | m :: rest, target =>
    if m = target then SelectRes.found m else specCurrentSelect rest target

/-- Spec-side rendering of the numeric clause of §4.4, amended by the observed
rate-0 behaviour: the first mode in list order with the requested width and
height whose refresh rate equals the requested rate, a rate of 0 (supplied
explicitly or by omission) matching any refresh rate; no match is a plain
failure. -/
def specNumericSelect : List drmModeModeInfo → Nat → Nat → Nat → SelectRes
  | [], _, _, _ => SelectRes.none
  | m :: rest, width, height, rate =>
    if m.hdisplay = width ∧ m.vdisplay = height ∧ (rate = 0 ∨ m.vrefresh = rate) then
      SelectRes.found m
    else specNumericSelect rest width height rate

/-- `enum wlr_drm_display_state`. -/
inductive DispState where
  | INVALID
  | DISCONNECTED
  | NEEDS_MODESET
  | CONNECTED
deriving DecidableEq, Repr, Inhabited

/-- `enum wlr_drm_event_kind`: the kinds passed to `wlr_drm_add_event`. -/
inductive DrmEvKind where
  | DISPLAY_ADD
  | DISPLAY_REM
  | RENDER
deriving DecidableEq, Repr

/-- `struct wlr_drm_display`.  `crtc` holds the assigned CRTC id
(`res->crtcs[j]`); `crtc_bit` is ghost state recording the index `j` whose bit
was taken in `taken_crtcs` for that assignment.  `hist` is ghost state: every
assignment to `disp->state` in the C pushes `(new state, event emitted at that
assignment site)`, newest first, so `hist` is the display's observed state
history.  Ghost fields influence no modelled behaviour. -/
structure Display where
  state : DispState
  connector : Nat
  name : String
  crtc : Option Nat
  crtc_bit : Option Nat
  num_modes : Nat
  modes : List drmModeModeInfo
  active_mode : Option drmModeModeInfo
  old_crtc : Option drmModeCrtc
  width : Nat
  height : Nat
  pageflip_pending : Bool
  cleanup : Bool
  hist : List (DispState × Option DrmEvKind)
deriving DecidableEq, Repr

/-- A slot as created by `wlr_drm_scan_connectors`' growth path: the compound
literal sets `.state = DRM_DISP_INVALID` (and the shared renderer pointer,
not modelled) and zero-initialises everything else. -/
def newDisplay : Display :=
  { state := DispState.INVALID
    connector := 0
    name := ""
    crtc := Option.none
    crtc_bit := Option.none
    num_modes := 0
    modes := []
    active_mode := Option.none
    old_crtc := Option.none
    width := 0
    height := 0
    pageflip_pending := false
    cleanup := false
    hist := [(DispState.INVALID, Option.none)] }

/-- `struct wlr_drm_backend`: the fields the claims touch.  `events` is the
pending-event queue, each entry naming the display by its slot index. -/
structure Backend where
  displays : List Display
  taken_crtcs : Nat
  events : List (Nat × DrmEvKind)
deriving DecidableEq, Repr

/-- A freshly initialised backend: empty slot table, empty bitmask, empty
event queue. -/
def backend0 : Backend :=
  { displays := [], taken_crtcs := 0, events := [] }

/-- The encoder fields read by the CRTC allocation loop. -/
structure drmModeEncoder where
  possible_crtcs : Nat
deriving DecidableEq, Repr

/-- The `drmModeConnector` fields this file reads.  `encoders` folds the
per-id `drmModeGetEncoder` results into the connector (a `none` entry is an
encoder whose query failed). -/
structure drmModeConnector where
  connection : Bool
  connector_type : Nat
  connector_type_id : Nat
  modes : List drmModeModeInfo
  encoders : List (Option drmModeEncoder)
deriving DecidableEq, Repr

/-- The `conn_name` table indexed by connector type. -/
def conn_name : List String :=
  ["Unknown", "VGA", "DVI-I", "DVI-D", "DVI-A", "Composite", "SVIDEO", "LVDS",
   "Component", "DIN", "DP", "HDMI-A", "HDMI-B", "TV", "eDP", "Virtual", "DSI"]

/-- Hardware responses consumed by one `wlr_drm_scan_connectors` call:
`res` is the `drmModeGetResources` result (connector ids paired with that
connector's `drmModeGetConnector` result), `reallocOk` whether the table
growth `realloc` succeeds. -/
structure ScanHw where
  res : Option (List (Nat × Option drmModeConnector))
  reallocOk : Bool
deriving Repr

/-- Hardware responses consumed by one `wlr_drm_display_modeset` call.
`currEnc` is the `drmModeGetEncoder(conn->encoder_id)` result, carrying the
`drmModeGetCrtc(curr_enc->crtc_id)` result inside it (so `none` means the
encoder query failed and `disp->old_crtc` keeps its previous value);
`res2` is the second `drmModeGetResources` call, giving the CRTC id table. -/
structure ModesetHw where
  conn : Option drmModeConnector
  mallocOk : Bool
  currEnc : Option (Option drmModeCrtc)
  res2 : Option (List Nat)
deriving Repr

/-- The per-connector body of the scan loop, acting on one display slot:
first-sighting stamping (INVALID → DISCONNECTED plus connector id and name),
then the two hotplug edges with their events. -/
def scanStamp (d : Display) (connId : Nat) (conn : drmModeConnector) : Display :=
  if d.state = DispState.INVALID then
    { d with
      state := DispState.DISCONNECTED
      connector := connId
      name := (conn_name.getD conn.connector_type "") ++ "-" ++
        toString conn.connector_type_id
      hist := (DispState.DISCONNECTED, Option.none) :: d.hist }
  else d

def scanDisp (d : Display) (connId : Nat) (conn : drmModeConnector) :
    Display × List DrmEvKind :=
  if (scanStamp d connId conn).state = DispState.DISCONNECTED ∧ conn.connection then
    ({ scanStamp d connId conn with
       state := DispState.NEEDS_MODESET
       hist := (DispState.NEEDS_MODESET, Option.some DrmEvKind.DISPLAY_ADD) ::
         (scanStamp d connId conn).hist },
     [DrmEvKind.DISPLAY_ADD])
  else if (scanStamp d connId conn).state = DispState.CONNECTED ∧ ¬conn.connection then
    ({ scanStamp d connId conn with
       state := DispState.DISCONNECTED
       hist := (DispState.DISCONNECTED, Option.some DrmEvKind.DISPLAY_REM) ::
         (scanStamp d connId conn).hist },
     [DrmEvKind.DISPLAY_REM])
  else (scanStamp d connId conn, [])

/-- The scan loop over `res->connectors`, slot index threaded through; a
failed per-connector query (`none`) skips the slot. -/
def scanLoop : Backend → Nat → List (Nat × Option drmModeConnector) → Backend
  | b, _, [] => b
  | b, i, (_, Option.none) :: rest => scanLoop b (i + 1) rest
  | b, i, (connId, Option.some conn) :: rest =>
    match b.displays.get? i with
    | Option.none => scanLoop b (i + 1) rest
    | Option.some d =>
      let (d', evs) := scanDisp d connId conn
      scanLoop
        { b with
          displays := b.displays.set i d'
          events := b.events ++ evs.map (fun e => (i, e)) }
        (i + 1) rest

/-- `wlr_drm_scan_connectors`: abort on resource-query failure; grow the slot
table when the connector count exceeds it (aborting the whole scan when the
`realloc` fails, as the `goto error` does); then run the per-connector loop. -/
def wlr_drm_scan_connectors (b : Backend) (hw : ScanHw) : Backend :=
  match hw.res with
  | Option.none => b
  | Option.some conns =>
    if conns.length > b.displays.length then
      if hw.reallocOk then
        scanLoop
          { b with
            displays :=
              b.displays ++ List.replicate (conns.length - b.displays.length) newDisplay }
          0 conns
      else b
    else scanLoop b 0 conns

/-- The inner CRTC loop of `wlr_drm_display_modeset`, for one encoder: the
first index `j < numCrtcs` whose bit is set in `possible_crtcs` and unset in
`taken`. -/
def findCrtcInner (possible taken numCrtcs : Nat) : Option Nat :=
  (List.range numCrtcs).find? (fun j => possible.testBit j && !taken.testBit j)

/-- The encoder/CRTC allocation loops of `wlr_drm_display_modeset`: walk the
connector's encoders (skipping failed encoder queries) until one yields a free
compatible CRTC index. -/
def findCrtc : List (Option drmModeEncoder) → Nat → Nat → Option Nat
  | [], _, _ => Option.none
  | Option.none :: rest, numCrtcs, taken => findCrtc rest numCrtcs taken
  | Option.some enc :: rest, numCrtcs, taken =>
    match findCrtcInner enc.possible_crtcs taken numCrtcs with
    | Option.some j => Option.some j
    | Option.none => findCrtc rest numCrtcs taken

/-- The `error:` tail of `wlr_drm_display_modeset`: `disp->state =
DRM_DISP_DISCONNECTED` and one `DRM_EV_DISPLAY_REM` for the display;
the function then returns `false`. -/
def modesetError (d : Display) : Display :=
  { d with
    state := DispState.DISCONNECTED
    hist := (DispState.DISCONNECTED, Option.some DrmEvKind.DISPLAY_REM) :: d.hist }

/-- `wlr_drm_display_modeset` at the level of one display.  Returns the
updated display, the updated `taken_crtcs` mask, the events added by the call
(in order), and the C return value; the overall `none` is the `assert(0)`
reachable through `select_mode` (the process aborts, so there is no
post-state).  `display_init_renderer`'s EGL/GBM work has no field of this
model to mutate and its return value is ignored by the C. -/
def wlr_drm_display_modeset (d : Display) (taken : Nat) (str : String)
    (hw : ModesetHw) : Option (Display × Nat × List DrmEvKind × Bool) :=
  match hw.conn with
  | Option.none => Option.some (modesetError d, taken, [DrmEvKind.DISPLAY_REM], false)
  | Option.some conn =>
    if ¬conn.connection ∨ conn.modes.length = 0 then
      Option.some (modesetError d, taken, [DrmEvKind.DISPLAY_REM], false)
    else
      let d := { d with num_modes := conn.modes.length }
      if ¬hw.mallocOk then
        Option.some (modesetError d, taken, [DrmEvKind.DISPLAY_REM], false)
      else
        let d := { d with modes := conn.modes }
        let d :=
          match hw.currEnc with
          | Option.none => d
          | Option.some oldc => { d with old_crtc := oldc }
        match select_mode conn.modes d.old_crtc str with
        | SelectRes.fatal => Option.none
        | SelectRes.none =>
          let d := { d with active_mode := Option.none }
          Option.some (modesetError d, taken, [DrmEvKind.DISPLAY_REM], false)
        | SelectRes.found m =>
          let d := { d with active_mode := Option.some m }
          match hw.res2 with
          | Option.none =>
            Option.some (modesetError d, taken, [DrmEvKind.DISPLAY_REM], false)
          | Option.some crtcs =>
            match findCrtc conn.encoders crtcs.length taken with
            | Option.none =>
              Option.some (modesetError d, taken, [DrmEvKind.DISPLAY_REM], false)
            | Option.some j =>
              let taken := taken ||| (1 <<< j)
              let d := { d with crtc := crtcs.get? j, crtc_bit := Option.some j }
              let d :=
                { d with
                  state := DispState.CONNECTED
                  hist := (DispState.CONNECTED, Option.none) :: d.hist
                  width := m.hdisplay
                  height := m.vdisplay }
              Option.some (d, taken, [], true)

/-- `page_flip_handler`: the hardware completion callback.  As written in the
C it SETS `pageflip_pending` (it does not clear it), and enqueues a RENDER
event unless cleanup is in progress. -/
def page_flip_handler (d : Display) : Display × List DrmEvKind :=
  ({ d with pageflip_pending := true },
   if d.cleanup then [] else [DrmEvKind.RENDER])

/-- `wlr_drm_display_end`: swaps buffers, locks the front buffer, resolves its
framebuffer and submits the asynchronous page flip (the returned `Bool`
records that a flip was submitted), then releases the buffer and — as written
in the C — sets `pageflip_pending` to `false`. -/
def wlr_drm_display_end (d : Display) : Display × Bool :=
  ({ d with pageflip_pending := false }, true)

/-- The `while (disp->pageflip_pending) drmHandleEvent(...)` wait loop of
`wlr_drm_display_free`, with fuel standing in for the number of hardware
events the device delivers; each `drmHandleEvent` dispatches one completion
for this display through `page_flip_handler`.  `none` means the loop was
still spinning when the fuel ran out. -/
def pumpLoop : Nat → Display → List DrmEvKind → Option (Display × List DrmEvKind)
  | 0, d, acc => if d.pageflip_pending then Option.none else Option.some (d, acc)
  | fuel + 1, d, acc =>
    if d.pageflip_pending then
      pumpLoop fuel (page_flip_handler d).1 (acc ++ (page_flip_handler d).2)
    else Option.some (d, acc)

/-- `wlr_drm_display_free`.  Returns the display, the events emitted while
pumping, and the CRTC configuration passed to the restoring `drmModeSetCrtc`
call (`none` when no restore call was made); the overall `none` is the
unbounded busy-wait failing to terminate within the fuel.  Destruction of the
EGL/GBM surfaces and `free(disp->modes)` release memory without mutating any
modelled field. -/
def wlr_drm_display_free (d : Display) (fuel : Nat) :
    Option (Display × List DrmEvKind × Option drmModeCrtc) :=
  if d.state ≠ DispState.CONNECTED then Option.some (d, [], Option.none)
  else
    match d.old_crtc with
    | Option.none => Option.some (d, [], Option.none)
    | Option.some crtc =>
      match pumpLoop fuel { d with cleanup := true } [] with
      | Option.none => Option.none
      | Option.some (d', evs) => Option.some (d', evs, Option.some crtc)

/-- `wlr_drm_event` delivering one pending completion for display `i` (the
`user` pointer of the flip): `drmHandleEvent` dispatches it through
`page_flip_handler`, which may enqueue a RENDER event. -/
def wlr_drm_event (b : Backend) (i : Nat) : Backend :=
  match b.displays.get? i with
  | Option.none => b
  | Option.some d =>
    let (d', evs) := page_flip_handler d
    { b with
      displays := b.displays.set i d'
      events := b.events ++ evs.map (fun e => (i, e)) }

/-- One externally triggerable operation on the backend, with the hardware's
responses as data.  `modeset`, `free` and `pump` name the display by slot
index (the C takes the `struct wlr_drm_display *` itself). -/
inductive DrmOp where
  | scan (hw : ScanHw)
  | modeset (i : Nat) (str : String) (hw : ModesetHw)
  | free (i : Nat) (fuel : Nat)
  | pump (i : Nat)

/-- One operation applied to the backend.  `none` propagates the two
situations with no post-state: the `assert(0)` abort inside modeset and a
teardown busy-wait that never terminates.  An operation naming a slot index
outside the table models no call (the C caller always holds a pointer to a
real slot) and leaves the backend unchanged. -/
def step (b : Backend) : DrmOp → Option Backend
  | DrmOp.scan hw => Option.some (wlr_drm_scan_connectors b hw)
  | DrmOp.modeset i str hw =>
    match b.displays.get? i with
    | Option.none => Option.some b
    | Option.some d =>
      match wlr_drm_display_modeset d b.taken_crtcs str hw with
      | Option.none => Option.none
      | Option.some (d', taken', evs, _) =>
        Option.some
          { b with
            displays := b.displays.set i d'
            taken_crtcs := taken'
            events := b.events ++ evs.map (fun e => (i, e)) }
  | DrmOp.free i fuel =>
    match b.displays.get? i with
    | Option.none => Option.some b
    | Option.some d =>
      match wlr_drm_display_free d fuel with
      | Option.none => Option.none
      | Option.some (d', evs, _) =>
        Option.some
          { b with
            displays := b.displays.set i d'
            events := b.events ++ evs.map (fun e => (i, e)) }
  | DrmOp.pump i => Option.some (wlr_drm_event b i)

/-- A whole operation sequence, stopping with `none` as soon as a step has no
post-state. -/
def run (b : Backend) : List DrmOp → Option Backend
  | [] => Option.some b
  | op :: rest =>
    match step b op with
    | Option.none => Option.none
    | Option.some b' => run b' rest

/-- Binary-digit recursion for `popcount`, with explicit fuel so that the
definition is structural (and hence evaluates inside the kernel); any fuel
at least `n` computes the true bit count of `n`. -/
def popcountAux : Nat → Nat → Nat
  | 0, _ => 0
  | fuel + 1, n => if n = 0 then 0 else popcountAux fuel (n / 2) + n % 2

/-- Number of set bits of a natural number (the "number of set bits in the
shared CRTC bitmask" of §8). -/
def popcount (n : Nat) : Nat := popcountAux n n

/-- The legal transition edges of §4.3, each with the event the spec attaches
to it. -/
def edgeOk : DispState → DispState → Option DrmEvKind → Bool
  | DispState.INVALID, DispState.DISCONNECTED, Option.none => true
  | DispState.DISCONNECTED, DispState.NEEDS_MODESET, Option.some DrmEvKind.DISPLAY_ADD => true
  | DispState.NEEDS_MODESET, DispState.CONNECTED, Option.none => true
  | DispState.NEEDS_MODESET, DispState.DISCONNECTED, Option.some DrmEvKind.DISPLAY_REM => true
  | DispState.CONNECTED, DispState.DISCONNECTED, Option.some DrmEvKind.DISPLAY_REM => true
  | _, _, _ => false

/-- A display's recorded state history (newest first) is a walk of the §4.3
graph: it starts at `INVALID` with no event and every later entry follows its
predecessor along a legal edge with that edge's event. -/
def histOk : List (DispState × Option DrmEvKind) → Bool
  | [] => false
  | (s, e) :: rest =>
    match rest with
    | [] => decide (s = DispState.INVALID) && decide (e = Option.none)
    | (s1, _) :: _ => edgeOk s1 s e && histOk rest

/-- The number of displays currently in state `CONNECTED`. -/
def connectedCount (b : Backend) : Nat :=
  b.displays.countP (fun d => decide (d.state = DispState.CONNECTED))

/-- The intended call discipline for `wlr_drm_display_modeset`: it is invoked
only on a display in state `NEEDS_MODESET` (the state entered on the hotplug
edge whose ADD event prompts the caller to modeset). -/
def goodOp (b : Backend) : DrmOp → Bool
  | DrmOp.modeset i _ _ =>
    match b.displays.get? i with
    | Option.none => true
    | Option.some d => decide (d.state = DispState.NEEDS_MODESET)
  | _ => true

/-- Every operation of the sequence satisfies the modeset call discipline at
the state where it executes. -/
def GuidedB : Backend → List DrmOp → Bool
  | _, [] => true
  | b, op :: rest =>
    goodOp b op &&
      (match step b op with
       | Option.none => true
       | Option.some b' => GuidedB b' rest)

/-- The recoverable-failure condition of `wlr_drm_display_modeset`, mirroring
its checks in execution order: connector query failure; connector not
connected or without modes; mode-list allocation failure; `select_mode`
returning `NULL` (no matching mode, unparseable request, or `"current"`
without a snapshot); resource query failure; or no free compatible CRTC.  The
`assert(0)` path is not a recoverable failure. -/
def modesetRecoverableFail (d : Display) (taken : Nat) (str : String)
    (hw : ModesetHw) : Bool :=
  match hw.conn with
  | Option.none => true
  | Option.some conn =>
    if ¬conn.connection ∨ conn.modes.length = 0 then true
    else if ¬hw.mallocOk then true
    else
      let oldc :=
        match hw.currEnc with
        | Option.none => d.old_crtc
        | Option.some oc => oc
      match select_mode conn.modes oldc str with
      | SelectRes.fatal => false
      | SelectRes.none => true
      | SelectRes.found _ =>
        match hw.res2 with
        | Option.none => true
        | Option.some crtcs => (findCrtc conn.encoders crtcs.length taken).isNone

/-- Concrete mode used by several witnesses: 1920x1080 at 60 Hz. -/
def mFHD60 : drmModeModeInfo :=
  { clock := 148500, hdisplay := 1920, vdisplay := 1080, vrefresh := 60, name := "1920x1080" }

/-- Concrete mode: 1920x1080 at 50 Hz, structurally distinct from `mFHD60`
beyond the refresh rate. -/
def mFHD50 : drmModeModeInfo :=
  { clock := 148500, hdisplay := 1920, vdisplay := 1080, vrefresh := 50, name := "1920x1080" }

/-- Concrete mode: 800x600 at 60 Hz. -/
def mSVGA : drmModeModeInfo :=
  { clock := 40000, hdisplay := 800, vdisplay := 600, vrefresh := 60, name := "800x600" }

/-- A display actively driving output, as after a successful modeset, with no
flip currently submitted. -/
def dRender : Display :=
  { newDisplay with
    state := DispState.CONNECTED
    hist := [(DispState.CONNECTED, Option.none),
             (DispState.NEEDS_MODESET, Option.some DrmEvKind.DISPLAY_ADD),
             (DispState.DISCONNECTED, Option.none),
             (DispState.INVALID, Option.none)] }

/-- `dRender` mid-teardown: the cleanup flag is set. -/
def dCleanup : Display := { dRender with cleanup := true }

/-- `dRender` with a flip submitted and outstanding. -/
def dFlipPending : Display := { dRender with pageflip_pending := true }

/-- The CRTC snapshot used by witnesses. -/
def crtcSnap : drmModeCrtc :=
  { crtc_id := 7, buffer_id := 3, x := 0, y := 0, mode := mFHD60 }

/-- `dRender` with a snapshot recorded at modeset time. -/
def dWithSnap : Display := { dRender with old_crtc := Option.some crtcSnap }

/-- Hardware responses with a failing connector query, for the C6 witness. -/
def hwConnFail : ModesetHw :=
  { conn := Option.none, mallocOk := true, currEnc := Option.none,
    res2 := Option.some [10] }

/-- The amended CRTC-bitmask invariant: the number of CONNECTED displays is
bounded by the number of set mask bits (equality fails because disconnect
never clears a bit), every bit held by a display is set in the mask, and no
two displays hold the same bit. -/
def CrtcInv (b : Backend) : Prop :=
  connectedCount b ≤ popcount b.taken_crtcs ∧
  (∀ d ∈ b.displays, ∀ j, d.crtc_bit = Option.some j → b.taken_crtcs.testBit j = true) ∧
  (∀ i j : Nat, ∀ hi : i < b.displays.length, ∀ hj : j < b.displays.length, i ≠ j →
    ∀ bi bj : Nat, (b.displays[i]).crtc_bit = Option.some bi →
      (b.displays[j]).crtc_bit = Option.some bj → bi ≠ bj)

/-- A connected full-HD connector with a single encoder compatible with CRTC
slot 0. -/
def connFHD : drmModeConnector :=
  { connection := true, connector_type := 11, connector_type_id := 1,
    modes := [mFHD60], encoders := [Option.some ⟨1⟩] }

/-- The same connector physically unplugged. -/
def connFHDOff : drmModeConnector := { connFHD with connection := false }

/-- One scan's hardware responses: a single connector, plugged. -/
def hwScanPlug : ScanHw :=
  { res := Option.some [(5, Option.some connFHD)], reallocOk := true }

/-- One scan's hardware responses: the same connector, unplugged. -/
def hwScanUnplug : ScanHw :=
  { res := Option.some [(5, Option.some connFHDOff)], reallocOk := true }

/-- Modeset hardware responses that succeed: connected connector, one mode,
one free compatible CRTC (id 10 at index 0). -/
def hwMsOk : ModesetHw :=
  { conn := Option.some connFHD, mallocOk := true, currEnc := Option.none,
    res2 := Option.some [10] }

/-- Plug, modeset successfully, unplug. -/
def opsConnectDisconnect : List DrmOp :=
  [DrmOp.scan hwScanPlug, DrmOp.modeset 0 "preferred" hwMsOk, DrmOp.scan hwScanUnplug]

/-- The state recorded by the newest entry of a history. -/
def histHead (h : List (DispState × Option DrmEvKind)) : DispState :=
  (h.headD (DispState.INVALID, Option.none)).1

/-- Every display's recorded history is a legal walk whose newest entry is the
display's current state. -/
def HistInv (b : Backend) : Prop :=
  ∀ d ∈ b.displays, histOk d.hist = true ∧ histHead d.hist = d.state

/-- The plugged connector again, this time with an encoder compatible with
CRTC slots 0 and 1 (the slot-0 bit is still taken from the first modeset). -/
def connFHD2 : drmModeConnector := { connFHD with encoders := [Option.some ⟨3⟩] }

/-- Modeset hardware responses for a retry after a disconnect: two CRTCs. -/
def hwMsOk2 : ModesetHw :=
  { conn := Option.some connFHD2, mallocOk := true, currEnc := Option.none,
    res2 := Option.some [10, 11] }

/-- Plug, modeset, unplug, then modeset the (now DISCONNECTED) display again
with success — the §7 "corrected configuration retry" flow. -/
def opsReconnect : List DrmOp :=
  opsConnectDisconnect ++ [DrmOp.modeset 0 "preferred" hwMsOk2]

lemma find_numeric_spec (modes : List drmModeModeInfo) (w h r : Nat) :
    (match modes.find? (fun m =>
        m.hdisplay == w && m.vdisplay == h && (r == 0 || m.vrefresh == r)) with
     | Option.some m => SelectRes.found m
     | Option.none => SelectRes.none) = specNumericSelect modes w h r := by
  induction modes with
  | nil => rfl
  | cons m rest ih =>
    by_cases hp : m.hdisplay = w ∧ m.vdisplay = h ∧ (r = 0 ∨ m.vrefresh = r)
    · have hb : (m.hdisplay == w && m.vdisplay == h && (r == 0 || m.vrefresh == r)) = true := by
        simp only [Bool.and_eq_true, Bool.or_eq_true, beq_iff_eq]
        exact ⟨⟨hp.1, hp.2.1⟩, by rcases hp.2.2 with h0 | h0 <;> simp [h0]⟩
      simp only [List.find?, hb]
      rw [specNumericSelect, if_pos hp]
    · have hb : (m.hdisplay == w && m.vdisplay == h && (r == 0 || m.vrefresh == r)) = false := by
        rw [Bool.eq_false_iff]
        intro hcon
        apply hp
        simp only [Bool.and_eq_true, Bool.or_eq_true, beq_iff_eq] at hcon
        exact ⟨hcon.1.1, hcon.1.2, by rcases hcon.2 with h0 | h0 <;> simp [h0]⟩
      simp only [List.find?, hb]
      rw [ih, specNumericSelect, if_neg hp]

lemma find_current_spec (modes : List drmModeModeInfo) (target : drmModeModeInfo) :
    (match modes.find? (fun m => m = target) with
     | Option.some m => SelectRes.found m
     | Option.none => SelectRes.fatal) = specCurrentSelect modes target := by
  induction modes with
  | nil => rfl
  | cons m rest ih =>
    by_cases hp : m = target
    · simp [List.find?, hp, specCurrentSelect]
    · simp [List.find?, hp, specCurrentSelect, ih]

/-- The numeric branch of `select_mode`, for any request string the scanner
accepts: the result is the spec-side first-match function. -/
lemma select_mode_numeric (modes : List drmModeModeInfo) (old : Option drmModeCrtc)
    (s : String) (w h r : Nat) (hs : sscanf_mode s = Option.some (w, h, r))
    (hp : s ≠ "preferred") (hc : s ≠ "current") :
    select_mode modes old s = specNumericSelect modes w h r := by
  unfold select_mode
  rw [if_neg hp, if_neg hc, hs]
  exact find_numeric_spec modes w h r

/-- C9: `select_mode` with request `"preferred"` returns the mode at index 0
of the (nonempty, per the `[static num_modes]` contract) list, whatever the
list and whatever the snapshot. -/
theorem preferred_selects_head (m : drmModeModeInfo) (rest : List drmModeModeInfo)
    (old : Option drmModeCrtc) :
    select_mode (m :: rest) old "preferred" = SelectRes.found m := rfl

/-- C8: `select_mode` with request `"current"` fails when no snapshot exists,
and with a snapshot returns the first structurally equal mode, the absence of
a match being the fatal `assert(0)`, exactly the spec-side
`specCurrentSelect`. -/
theorem current_select_spec (modes : List drmModeModeInfo) (crtc : drmModeCrtc) :
    select_mode modes Option.none "current" = SelectRes.none ∧
    select_mode modes (Option.some crtc) "current" = specCurrentSelect modes crtc.mode := by
  constructor
  · rfl
  · show (match modes.find? (fun m => m = crtc.mode) with
      | Option.some m => SelectRes.found m
      | Option.none => SelectRes.fatal) = specCurrentSelect modes crtc.mode
    exact find_current_spec modes crtc.mode

/-- C7 counterexample: the request `"1920x1080@0"` supplies an explicit
refresh rate of 0; no mode in the list has refresh rate 0, so the claim as
stated demands failure, yet `select_mode` returns the 60 Hz mode. -/
theorem numeric_rate_zero_counterexample :
    sscanf_mode "1920x1080@0" = Option.some (1920, 1080, 0) ∧
    select_mode [mFHD60] Option.none "1920x1080@0" = SelectRes.found mFHD60 ∧
    mFHD60.vrefresh ≠ 0 := by decide

/-- C7 amended: for a request string scanning as width `w`, height `h`, rate
`r`, `select_mode` returns the first mode in list order whose width and height
match and whose refresh rate matches `r`, except that `r = 0` — supplied
explicitly or left at 0 by omission — matches any refresh rate; no match is a
failure. -/
theorem numeric_select_first_match (modes : List drmModeModeInfo)
    (old : Option drmModeCrtc) (s : String) (w h r : Nat)
    (hs : sscanf_mode s = Option.some (w, h, r))
    (hp : s ≠ "preferred") (hc : s ≠ "current") :
    select_mode modes old s = specNumericSelect modes w h r :=
  select_mode_numeric modes old s w h r hs hp hc

/-- Witness for the amended C7 at a concrete list and request: the first of
the two 1920x1080 modes with refresh 60 is selected by `"1920x1080@60"`. -/
theorem numeric_select_first_match_witness :
    select_mode [mSVGA, mFHD50, mFHD60] Option.none "1920x1080@60" =
      specNumericSelect [mSVGA, mFHD50, mFHD60] 1920 1080 60 :=
  numeric_select_first_match [mSVGA, mFHD50, mFHD60] Option.none "1920x1080@60"
    1920 1080 60 (by decide) (by decide) (by decide)

/-- C10: a numeric request whose explicit rate is 0 behaves exactly like the
rate-omitted form: both select the first mode matching width and height,
regardless of refresh rate. -/
theorem rate_zero_like_omitted (modes : List drmModeModeInfo)
    (old : Option drmModeCrtc) (s s' : String) (w h : Nat)
    (hs : sscanf_mode s = Option.some (w, h, 0))
    (hs' : sscanf_mode s' = Option.some (w, h, 0))
    (hp : s ≠ "preferred") (hc : s ≠ "current")
    (hp' : s' ≠ "preferred") (hc' : s' ≠ "current") :
    select_mode modes old s = select_mode modes old s' ∧
    select_mode modes old s = specNumericSelect modes w h 0 := by
  have h1 := select_mode_numeric modes old s w h 0 hs hp hc
  have h2 := select_mode_numeric modes old s' w h 0 hs' hp' hc'
  exact ⟨h1.trans h2.symm, h1⟩

/-- Witness for C10: `"1920x1080@0"` and `"1920x1080"` agree on a list whose
only 1920x1080 modes have nonzero refresh rates. -/
theorem rate_zero_like_omitted_witness :
    select_mode [mSVGA, mFHD50, mFHD60] Option.none "1920x1080@0" =
      select_mode [mSVGA, mFHD50, mFHD60] Option.none "1920x1080" ∧
    select_mode [mSVGA, mFHD50, mFHD60] Option.none "1920x1080@0" =
      specNumericSelect [mSVGA, mFHD50, mFHD60] 1920 1080 0 :=
  rate_zero_like_omitted [mSVGA, mFHD50, mFHD60] Option.none
    "1920x1080@0" "1920x1080" 1920 1080 (by decide) (by decide)
    (by decide) (by decide) (by decide) (by decide)

/-- C1 (evaluation of the code at the failing input): `page_flip_handler`
SETS the pending-flip flag — it does not clear it as the spec states — while
the RENDER-iff-not-cleanup part behaves as claimed. -/
theorem page_flip_handler_sets_pending :
    (page_flip_handler dRender).1.pageflip_pending = true ∧
    (page_flip_handler dRender).2 = [DrmEvKind.RENDER] ∧
    (page_flip_handler dCleanup).1.pageflip_pending = true ∧
    (page_flip_handler dCleanup).2 = [] := by decide

/-- C2 (evaluation of the code at the failing input): `wlr_drm_display_end`
submits the page flip but then sets the pending-flip flag to FALSE, not true
as the spec states. -/
theorem display_end_clears_pending :
    (wlr_drm_display_end dFlipPending).1.pageflip_pending = false ∧
    (wlr_drm_display_end dFlipPending).2 = true := by decide

lemma pumpLoop_some (fuel : Nat) (d : Display) (acc : List DrmEvKind)
    (d' : Display) (evs : List DrmEvKind)
    (h : pumpLoop fuel d acc = Option.some (d', evs)) :
    d'.pageflip_pending = false ∧ d'.state = d.state ∧ d'.crtc_bit = d.crtc_bit ∧
    d'.hist = d.hist := by
  induction fuel generalizing d acc with
  | zero =>
    unfold pumpLoop at h
    by_cases hp : d.pageflip_pending = true
    · rw [if_pos hp] at h
      cases h
    · rw [if_neg hp] at h
      injection h with h'
      injection h' with ha hb
      subst ha
      exact ⟨Bool.eq_false_iff.mpr hp, rfl, rfl, rfl⟩
  | succ n ih =>
    unfold pumpLoop at h
    by_cases hp : d.pageflip_pending = true
    · rw [if_pos hp] at h
      exact ih (page_flip_handler d).1 (acc ++ (page_flip_handler d).2) h
    · rw [if_neg hp] at h
      injection h with h'
      injection h' with ha hb
      subst ha
      exact ⟨Bool.eq_false_iff.mpr hp, rfl, rfl, rfl⟩

/-- C4 counterexample: a CONNECTED display with no previously-active CRTC
snapshot and a flip still pending.  `wlr_drm_display_free` returns at once:
it neither pumps until the pending-flip flag clears (the flag is still true
on return) nor reconfigures the pipeline (no `drmModeSetCrtc` call is made). -/
theorem display_free_no_snapshot_counterexample :
    dFlipPending.state = DispState.CONNECTED ∧
    dFlipPending.pageflip_pending = true ∧
    wlr_drm_display_free dFlipPending 5 =
      Option.some (dFlipPending, [], Option.none) := by decide

/-- C4 amended: for a CONNECTED display that HAS a previously-active CRTC
configuration snapshot, `wlr_drm_display_free` does not return while the
pending-flip flag is true — it pumps hardware events until the flag is false
— and on return it has reconfigured the pipeline with exactly that
snapshot. -/
theorem display_free_waits_and_restores (d : Display) (fuel : Nat) (c : drmModeCrtc)
    (d' : Display) (evs : List DrmEvKind) (r : Option drmModeCrtc)
    (hst : d.state = DispState.CONNECTED) (hsnap : d.old_crtc = Option.some c)
    (h : wlr_drm_display_free d fuel = Option.some (d', evs, r)) :
    d'.pageflip_pending = false ∧ r = Option.some c := by
  unfold wlr_drm_display_free at h
  rw [if_neg (fun hne => hne hst)] at h
  split at h
  · rename_i heq
    rw [hsnap] at heq
    cases heq
  · rename_i crtc0 heq
    rw [hsnap] at heq
    injection heq with heqc
    subst heqc
    split at h
    · cases h
    · rename_i a b heq2
      have hpump := pumpLoop_some _ _ _ _ _ heq2
      injection h with h'
      injection h' with ha h''
      injection h'' with hb hc
      subst ha
      exact ⟨hpump.1, hc.symm⟩

/-- Witness for the amended C4: freeing a CONNECTED display that holds a
snapshot and has no pending flip returns with the flag false and the restore
issued with that snapshot. -/
theorem display_free_waits_and_restores_witness :
    ({ dWithSnap with cleanup := true } : Display).pageflip_pending = false ∧
    (Option.some crtcSnap : Option drmModeCrtc) = Option.some crtcSnap :=
  display_free_waits_and_restores dWithSnap 0 crtcSnap
    { dWithSnap with cleanup := true } [] (Option.some crtcSnap) rfl rfl (by decide)

/-- C6: every recoverable modeset failure — connector query failure,
connector not connected or without modes, mode-list allocation failure, no
matching mode, resource query failure, or no free compatible CRTC — makes
`wlr_drm_display_modeset` return `false`, leave the display in state
`DISCONNECTED`, enqueue exactly one `DISPLAY_REM` event for it, and leave the
CRTC mask unchanged. -/
theorem modeset_recoverable_failure_rollback (d : Display) (taken : Nat) (str : String)
    (hw : ModesetHw) (hf : modesetRecoverableFail d taken str hw = true) :
    (wlr_drm_display_modeset d taken str hw).map
        (fun r => (r.1.state, r.2.1, r.2.2.1, r.2.2.2)) =
      Option.some (DispState.DISCONNECTED, taken, [DrmEvKind.DISPLAY_REM], false) := by
  unfold modesetRecoverableFail at hf
  unfold wlr_drm_display_modeset
  cases hconn : hw.conn with
  | none => rfl
  | some conn =>
    rw [hconn] at hf
    dsimp only at hf ⊢
    by_cases h1 : ¬conn.connection = true ∨ conn.modes.length = 0
    · rw [if_pos h1]
      rfl
    · rw [if_neg h1] at hf
      rw [if_neg h1]
      by_cases h2 : ¬hw.mallocOk = true
      · rw [if_pos h2]
        rfl
      · rw [if_neg h2] at hf
        rw [if_neg h2]
        cases hce : hw.currEnc with
        | none =>
          rw [hce] at hf
          dsimp only at hf ⊢
          cases hsel : select_mode conn.modes d.old_crtc str with
          | fatal => rw [hsel] at hf; simp at hf
          | none => rfl
          | found m =>
            rw [hsel] at hf
            dsimp only
            cases hres : hw.res2 with
            | none => rfl
            | some crtcs =>
              rw [hres] at hf
              dsimp only
              cases hfind : findCrtc conn.encoders crtcs.length taken with
              | none => rfl
              | some j => dsimp only at hf; rw [hfind] at hf; simp at hf
        | some oc =>
          rw [hce] at hf
          dsimp only at hf ⊢
          cases hsel : select_mode conn.modes oc str with
          | fatal => rw [hsel] at hf; simp at hf
          | none => rfl
          | found m =>
            rw [hsel] at hf
            dsimp only
            cases hres : hw.res2 with
            | none => rfl
            | some crtcs =>
              rw [hres] at hf
              dsimp only
              cases hfind : findCrtc conn.encoders crtcs.length taken with
              | none => rfl
              | some j => dsimp only at hf; rw [hfind] at hf; simp at hf

/-- Witness for C6 at a concrete recoverable failure (connector query
failure) on a display awaiting modeset. -/
theorem modeset_recoverable_failure_rollback_witness :
    (wlr_drm_display_modeset dRender 0 "preferred" hwConnFail).map
        (fun r => (r.1.state, r.2.1, r.2.2.1, r.2.2.2)) =
      Option.some (DispState.DISCONNECTED, 0, [DrmEvKind.DISPLAY_REM], false) :=
  modeset_recoverable_failure_rollback dRender 0 "preferred" hwConnFail (by decide)

lemma popcountAux_congr : ∀ n f g : Nat, n ≤ f → n ≤ g → popcountAux f n = popcountAux g n := by
  intro n
  induction n using Nat.strong_induction_on with
  | _ n ih =>
    intro f g hf hg
    cases n with
    | zero => cases f <;> cases g <;> rfl
    | succ m =>
      cases f with
      | zero => exact absurd hf (Nat.not_succ_le_zero m)
      | succ f' =>
        cases g with
        | zero => exact absurd hg (Nat.not_succ_le_zero m)
        | succ g' =>
          show popcountAux (f' + 1) (m + 1) = popcountAux (g' + 1) (m + 1)
          unfold popcountAux
          rw [if_neg (Nat.succ_ne_zero m), if_neg (Nat.succ_ne_zero m)]
          have hlt : (m + 1) / 2 < m + 1 := Nat.div_lt_self (Nat.succ_pos m) (by decide)
          have h1 : (m + 1) / 2 ≤ f' := Nat.lt_succ_iff.mp (Nat.lt_of_lt_of_le hlt hf)
          have h2 : (m + 1) / 2 ≤ g' := Nat.lt_succ_iff.mp (Nat.lt_of_lt_of_le hlt hg)
          rw [ih ((m + 1) / 2) hlt f' g' h1 h2]

lemma popcount_rec (n : Nat) : popcount n = popcount (n / 2) + n % 2 := by
  cases n with
  | zero => rfl
  | succ m =>
    show popcountAux (m + 1) (m + 1) = popcount ((m + 1) / 2) + (m + 1) % 2
    unfold popcountAux
    rw [if_neg (Nat.succ_ne_zero m)]
    have hlt : (m + 1) / 2 < m + 1 := Nat.div_lt_self (Nat.succ_pos m) (by decide)
    rw [popcountAux_congr ((m + 1) / 2) m ((m + 1) / 2) (Nat.lt_succ_iff.mp hlt) (Nat.le_refl _)]
    rfl

lemma lor_div_two (a b : Nat) : (a ||| b) / 2 = a / 2 ||| b / 2 := by
  apply Nat.eq_of_testBit_eq
  intro i
  rw [Nat.testBit_div_two, Nat.testBit_lor, Nat.testBit_lor,
    Nat.testBit_div_two, Nat.testBit_div_two]

lemma mod_two_of_testBit (a : Nat) : a % 2 = if a.testBit 0 then 1 else 0 := by
  rw [Nat.testBit_zero]
  rcases Nat.mod_two_eq_zero_or_one a with h | h <;> rw [h] <;> simp

lemma popcount_lor_pow (j : Nat) : ∀ n : Nat, n.testBit j = false →
    popcount (n ||| 1 <<< j) = popcount n + 1 := by
  induction j with
  | zero =>
    intro n h
    have h1 : (1 : Nat) <<< 0 = 1 := rfl
    rw [h1, popcount_rec (n ||| 1), popcount_rec n, lor_div_two]
    have hd : (1 : Nat) / 2 = 0 := rfl
    rw [hd]
    have hz : n / 2 ||| 0 = n / 2 := Nat.eq_of_testBit_eq (by
      intro i
      rw [Nat.testBit_lor]
      simp)
    rw [hz]
    have hn : n % 2 = 0 := by
      rw [mod_two_of_testBit, h]
      rfl
    have ho : (n ||| 1) % 2 = 1 := by
      rw [mod_two_of_testBit, Nat.testBit_lor, h]
      rfl
    rw [hn, ho]
  | succ j ih =>
    intro n h
    have hs : (1 : Nat) <<< (j + 1) = 2 * (1 <<< j) := Nat.shiftLeft_succ 1 j
    rw [popcount_rec (n ||| 1 <<< (j + 1)), popcount_rec n, lor_div_two]
    have hdiv : (1 : Nat) <<< (j + 1) / 2 = 1 <<< j := by
      rw [hs, Nat.mul_div_cancel_left _ (by decide : 0 < 2)]
    rw [hdiv]
    have hb0 : ((1 : Nat) <<< (j + 1)).testBit 0 = false := by
      rw [Nat.testBit_shiftLeft]
      simp
    have hmod : (n ||| 1 <<< (j + 1)) % 2 = n % 2 := by
      rw [mod_two_of_testBit, mod_two_of_testBit (a := n), Nat.testBit_lor, hb0,
        Bool.or_false]
    rw [hmod]
    have hbit : (n / 2).testBit j = false := by
      rw [Nat.testBit_div_two]
      exact h
    rw [ih (n / 2) hbit]
    omega

lemma testBit_lor_self (n j : Nat) : (n ||| 1 <<< j).testBit j = true := by
  rw [Nat.testBit_lor, Nat.testBit_shiftLeft]
  simp

lemma testBit_lor_mono (n j k : Nat) (h : n.testBit k = true) :
    (n ||| 1 <<< j).testBit k = true := by
  rw [Nat.testBit_lor, h]
  rfl

lemma findCrtcInner_unset (possible taken numCrtcs j : Nat)
    (h : findCrtcInner possible taken numCrtcs = Option.some j) :
    taken.testBit j = false := by
  have hp := List.find?_some h
  rw [Bool.and_eq_true] at hp
  simpa using hp.2

lemma findCrtc_unset : ∀ (encs : List (Option drmModeEncoder)) (numCrtcs taken j : Nat),
    findCrtc encs numCrtcs taken = Option.some j → taken.testBit j = false := by
  intro encs
  induction encs with
  | nil => intro numCrtcs taken j h; cases h
  | cons e rest ih =>
    intro numCrtcs taken j h
    cases e with
    | none => exact ih numCrtcs taken j h
    | some enc =>
      unfold findCrtc at h
      cases hin : findCrtcInner enc.possible_crtcs taken numCrtcs with
      | none =>
        rw [hin] at h
        exact ih numCrtcs taken j h
      | some j' =>
        rw [hin] at h
        injection h with h'
        subst h'
        exact findCrtcInner_unset enc.possible_crtcs taken numCrtcs _ hin

lemma countP_set_le_of_imp {α : Type} (p : α → Bool) (l : List α) (i : Nat) (a : α)
    (hi : i < l.length) (himp : p a = true → p (l.get ⟨i, hi⟩) = true) :
    List.countP p (l.set i a) ≤ List.countP p l := by
  rw [List.countP_set p l i a hi]
  by_cases hpa : p a = true
  · have hpl : p l[i] = true := himp hpa
    rw [if_pos hpa, if_pos hpl]
    have hone : 0 < List.countP p l :=
      List.countP_pos_iff.mpr ⟨l.get ⟨i, hi⟩, List.get_mem l i hi, himp hpa⟩
    omega
  · rw [if_neg hpa]
    omega

lemma countP_set_le_succ {α : Type} (p : α → Bool) (l : List α) (i : Nat) (a : α)
    (hi : i < l.length) :
    List.countP p (l.set i a) ≤ List.countP p l + 1 := by
  rw [List.countP_set p l i a hi]
  by_cases hpa : p a = true
  · rw [if_pos hpa]
    omega
  · rw [if_neg hpa]
    omega

lemma scanStamp_bit (d : Display) (cid : Nat) (conn : drmModeConnector) :
    (scanStamp d cid conn).crtc_bit = d.crtc_bit := by
  unfold scanStamp
  split <;> rfl

lemma scanStamp_connected (d : Display) (cid : Nat) (conn : drmModeConnector) :
    (scanStamp d cid conn).state = DispState.CONNECTED → d.state = DispState.CONNECTED := by
  unfold scanStamp
  split
  · intro h
    cases h
  · exact id

lemma scanDisp_bit (d : Display) (cid : Nat) (conn : drmModeConnector) :
    (scanDisp d cid conn).1.crtc_bit = d.crtc_bit := by
  unfold scanDisp
  split
  · exact scanStamp_bit d cid conn
  split
  · exact scanStamp_bit d cid conn
  · exact scanStamp_bit d cid conn

lemma scanDisp_connected (d : Display) (cid : Nat) (conn : drmModeConnector) :
    (scanDisp d cid conn).1.state = DispState.CONNECTED → d.state = DispState.CONNECTED := by
  unfold scanDisp
  split
  · intro h
    cases h
  split
  · intro h
    cases h
  · exact scanStamp_connected d cid conn

lemma crtcInv_set (b : Backend) (i : Nat) (d d' : Display) (evs : List (Nat × DrmEvKind))
    (hget : b.displays.get? i = Option.some d)
    (hs : d'.state = DispState.CONNECTED → d.state = DispState.CONNECTED)
    (hbit : d'.crtc_bit = d.crtc_bit) (hinv : CrtcInv b) :
    CrtcInv { displays := b.displays.set i d', taken_crtcs := b.taken_crtcs,
              events := evs } := by
  obtain ⟨hc, hmem, hpair⟩ := hinv
  obtain ⟨hi, hgd0⟩ := List.get?_eq_some.mp hget
  rw [List.get_eq_getElem] at hgd0
  have hgd : b.displays[i] = d := hgd0
  refine ⟨?_, ?_, ?_⟩
  · show List.countP _ (b.displays.set i d') ≤ popcount b.taken_crtcs
    refine le_trans (countP_set_le_of_imp _ _ _ _ hi ?_) hc
    intro hpd'
    show decide ((b.displays[i]).state = DispState.CONNECTED) = true
    rw [hgd]
    exact decide_eq_true (hs (of_decide_eq_true hpd'))
  · intro d0 hd0 j hj0
    rcases List.mem_or_eq_of_mem_set hd0 with hmem0 | heq0
    · exact hmem d0 hmem0 j hj0
    · subst heq0
      rw [hbit] at hj0
      refine hmem d ?_ j hj0
      rw [← hgd]
      exact List.getElem_mem hi
  · intro i1 j1 hi1 hj1 hne bi bj hbi hbj
    have hl1 : i1 < b.displays.length := by
      simpa using hi1
    have hl2 : j1 < b.displays.length := by
      simpa using hj1
    by_cases e1 : i1 = i
    · subst e1
      have e2 : i1 ≠ j1 := hne
      rw [List.getElem_set_self] at hbi
      rw [List.getElem_set_ne hne] at hbj
      rw [hbit] at hbi
      refine hpair i1 j1 hl1 hl2 hne bi bj ?_ hbj
      rw [hgd]
      exact hbi
    · rw [List.getElem_set_ne (fun hh => e1 hh.symm)] at hbi
      by_cases e2 : j1 = i
      · subst e2
        rw [List.getElem_set_self] at hbj
        rw [hbit] at hbj
        refine hpair i1 j1 hl1 hl2 hne bi bj hbi ?_
        rw [hgd]
        exact hbj
      · rw [List.getElem_set_ne (fun hh => e2 hh.symm)] at hbj
        exact hpair i1 j1 hl1 hl2 hne bi bj hbi hbj

lemma crtcInv_append_new (b : Backend) (k : Nat) (hinv : CrtcInv b) :
    CrtcInv { displays := b.displays ++ List.replicate k newDisplay,
              taken_crtcs := b.taken_crtcs, events := b.events } := by
  obtain ⟨hc, hmem, hpair⟩ := hinv
  refine ⟨?_, ?_, ?_⟩
  · show List.countP _ (b.displays ++ List.replicate k newDisplay) ≤ _
    rw [List.countP_append, List.countP_replicate]
    rw [if_neg (by decide : ¬(decide (newDisplay.state = DispState.CONNECTED) = true))]
    simpa using hc
  · intro d0 hd0 j hj
    rcases List.mem_append.mp hd0 with hmem0 | hmem0
    · exact hmem d0 hmem0 j hj
    · have heq0 : d0 = newDisplay := List.eq_of_mem_replicate hmem0
      subst heq0
      exact Option.noConfusion hj
  · intro i j hi hj hne bi bj hbi hbj
    by_cases h1 : i < b.displays.length
    · by_cases h2 : j < b.displays.length
      · rw [List.getElem_append_left h1] at hbi
        rw [List.getElem_append_left h2] at hbj
        exact hpair i j h1 h2 hne bi bj hbi hbj
      · rw [List.getElem_append_right (Nat.le_of_not_lt h2)] at hbj
        rw [List.getElem_replicate] at hbj
        exact Option.noConfusion hbj
    · rw [List.getElem_append_right (Nat.le_of_not_lt h1)] at hbi
      rw [List.getElem_replicate] at hbi
      exact Option.noConfusion hbi

lemma scanLoop_crtcInv : ∀ (conns : List (Nat × Option drmModeConnector)) (b : Backend)
    (i : Nat), CrtcInv b → CrtcInv (scanLoop b i conns) := by
  intro conns
  induction conns with
  | nil =>
    intro b i h
    exact h
  | cons c rest ih =>
    intro b i h
    rcases c with ⟨cid, copt⟩
    cases copt with
    | none => exact ih b (i + 1) h
    | some conn =>
      unfold scanLoop
      cases hget : b.displays.get? i with
      | none => exact ih b (i + 1) h
      | some d =>
        refine ih _ (i + 1) ?_
        exact crtcInv_set b i d (scanDisp d cid conn).1 _ hget
          (scanDisp_connected d cid conn) (scanDisp_bit d cid conn) h

lemma free_out (d : Display) (fuel : Nat) (d' : Display) (evs : List DrmEvKind)
    (r : Option drmModeCrtc) (h : wlr_drm_display_free d fuel = Option.some (d', evs, r)) :
    d'.state = d.state ∧ d'.crtc_bit = d.crtc_bit ∧ d'.hist = d.hist := by
  unfold wlr_drm_display_free at h
  split at h
  · simp only [Option.some.injEq, Prod.mk.injEq] at h
    obtain ⟨h1, h2, h3⟩ := h
    subst h1
    exact ⟨rfl, rfl, rfl⟩
  · split at h
    · simp only [Option.some.injEq, Prod.mk.injEq] at h
      obtain ⟨h1, h2, h3⟩ := h
      subst h1
      exact ⟨rfl, rfl, rfl⟩
    · split at h
      · cases h
      · rename_i a bb heq
        simp only [Option.some.injEq, Prod.mk.injEq] at h
        obtain ⟨h1, h2, h3⟩ := h
        subst h1
        have hp := pumpLoop_some _ _ _ _ _ heq
        exact ⟨hp.2.1, hp.2.2.1, hp.2.2.2⟩

lemma modeset_out (d : Display) (taken : Nat) (str : String) (hw : ModesetHw)
    (d' : Display) (taken' : Nat) (evs : List DrmEvKind) (ok : Bool)
    (h : wlr_drm_display_modeset d taken str hw = Option.some (d', taken', evs, ok)) :
    (taken' = taken ∧ d'.crtc_bit = d.crtc_bit ∧ d'.state = DispState.DISCONNECTED ∧
      evs = [DrmEvKind.DISPLAY_REM] ∧
      d'.hist = (DispState.DISCONNECTED, Option.some DrmEvKind.DISPLAY_REM) :: d.hist ∧
      ok = false)
    ∨ (∃ j, taken.testBit j = false ∧ taken' = taken ||| (1 <<< j) ∧
        d'.crtc_bit = Option.some j ∧ d'.state = DispState.CONNECTED ∧ evs = [] ∧
        d'.hist = (DispState.CONNECTED, Option.none) :: d.hist ∧ ok = true) := by
  unfold wlr_drm_display_modeset at h
  cases hconn : hw.conn with
  | none =>
    rw [hconn] at h
    dsimp only at h
    simp only [Option.some.injEq, Prod.mk.injEq] at h
    obtain ⟨h1, h2, h3, h4⟩ := h
    subst h1; subst h2; subst h3; subst h4
    exact Or.inl ⟨rfl, rfl, rfl, rfl, rfl, rfl⟩
  | some conn =>
    rw [hconn] at h
    dsimp only at h
    by_cases h1 : ¬conn.connection = true ∨ conn.modes.length = 0
    · rw [if_pos h1] at h
      simp only [Option.some.injEq, Prod.mk.injEq] at h
      obtain ⟨ha, hb, hc, hd⟩ := h
      subst ha; subst hb; subst hc; subst hd
      exact Or.inl ⟨rfl, rfl, rfl, rfl, rfl, rfl⟩
    · rw [if_neg h1] at h
      by_cases h2 : ¬hw.mallocOk = true
      · rw [if_pos h2] at h
        simp only [Option.some.injEq, Prod.mk.injEq] at h
        obtain ⟨ha, hb, hc, hd⟩ := h
        subst ha; subst hb; subst hc; subst hd
        exact Or.inl ⟨rfl, rfl, rfl, rfl, rfl, rfl⟩
      · rw [if_neg h2] at h
        cases hce : hw.currEnc with
        | none =>
          rw [hce] at h
          dsimp only at h
          cases hsel : select_mode conn.modes d.old_crtc str with
          | fatal =>
            rw [hsel] at h
            cases h
          | none =>
            rw [hsel] at h
            simp only [Option.some.injEq, Prod.mk.injEq] at h
            obtain ⟨ha, hb, hc, hd⟩ := h
            subst ha; subst hb; subst hc; subst hd
            exact Or.inl ⟨rfl, rfl, rfl, rfl, rfl, rfl⟩
          | found m =>
            rw [hsel] at h
            cases hres : hw.res2 with
            | none =>
              rw [hres] at h
              simp only [Option.some.injEq, Prod.mk.injEq] at h
              obtain ⟨ha, hb, hc, hd⟩ := h
              subst ha; subst hb; subst hc; subst hd
              exact Or.inl ⟨rfl, rfl, rfl, rfl, rfl, rfl⟩
            | some crtcs =>
              rw [hres] at h
              dsimp only at h
              cases hfind : findCrtc conn.encoders crtcs.length taken with
              | none =>
                rw [hfind] at h
                simp only [Option.some.injEq, Prod.mk.injEq] at h
                obtain ⟨ha, hb, hc, hd⟩ := h
                subst ha; subst hb; subst hc; subst hd
                exact Or.inl ⟨rfl, rfl, rfl, rfl, rfl, rfl⟩
              | some j =>
                rw [hfind] at h
                simp only [Option.some.injEq, Prod.mk.injEq] at h
                obtain ⟨ha, hb, hc, hd⟩ := h
                subst ha; subst hb; subst hc; subst hd
                exact Or.inr ⟨j, findCrtc_unset conn.encoders crtcs.length taken j hfind,
                  rfl, rfl, rfl, rfl, rfl, rfl⟩
        | some oc =>
          rw [hce] at h
          dsimp only at h
          cases hsel : select_mode conn.modes oc str with
          | fatal =>
            rw [hsel] at h
            cases h
          | none =>
            rw [hsel] at h
            simp only [Option.some.injEq, Prod.mk.injEq] at h
            obtain ⟨ha, hb, hc, hd⟩ := h
            subst ha; subst hb; subst hc; subst hd
            exact Or.inl ⟨rfl, rfl, rfl, rfl, rfl, rfl⟩
          | found m =>
            rw [hsel] at h
            cases hres : hw.res2 with
            | none =>
              rw [hres] at h
              simp only [Option.some.injEq, Prod.mk.injEq] at h
              obtain ⟨ha, hb, hc, hd⟩ := h
              subst ha; subst hb; subst hc; subst hd
              exact Or.inl ⟨rfl, rfl, rfl, rfl, rfl, rfl⟩
            | some crtcs =>
              rw [hres] at h
              dsimp only at h
              cases hfind : findCrtc conn.encoders crtcs.length taken with
              | none =>
                rw [hfind] at h
                simp only [Option.some.injEq, Prod.mk.injEq] at h
                obtain ⟨ha, hb, hc, hd⟩ := h
                subst ha; subst hb; subst hc; subst hd
                exact Or.inl ⟨rfl, rfl, rfl, rfl, rfl, rfl⟩
              | some j =>
                rw [hfind] at h
                simp only [Option.some.injEq, Prod.mk.injEq] at h
                obtain ⟨ha, hb, hc, hd⟩ := h
                subst ha; subst hb; subst hc; subst hd
                exact Or.inr ⟨j, findCrtc_unset conn.encoders crtcs.length taken j hfind,
                  rfl, rfl, rfl, rfl, rfl, rfl⟩

lemma crtcInv_set_success (b : Backend) (i : Nat) (d d' : Display)
    (evs : List (Nat × DrmEvKind)) (j : Nat)
    (hget : b.displays.get? i = Option.some d)
    (hfresh : b.taken_crtcs.testBit j = false)
    (hbit : d'.crtc_bit = Option.some j) (hinv : CrtcInv b) :
    CrtcInv { displays := b.displays.set i d',
              taken_crtcs := b.taken_crtcs ||| (1 <<< j), events := evs } := by
  obtain ⟨hc, hmem, hpair⟩ := hinv
  obtain ⟨hi, hgd0⟩ := List.get?_eq_some.mp hget
  refine ⟨?_, ?_, ?_⟩
  · show List.countP _ (b.displays.set i d') ≤ popcount (b.taken_crtcs ||| 1 <<< j)
    rw [popcount_lor_pow j b.taken_crtcs hfresh]
    exact le_trans (countP_set_le_succ _ _ _ _ hi) (Nat.add_le_add_right hc 1)
  · intro d0 hd0 k hk
    rcases List.mem_or_eq_of_mem_set hd0 with hmem0 | heq0
    · exact testBit_lor_mono _ _ _ (hmem d0 hmem0 k hk)
    · subst heq0
      rw [hbit] at hk
      injection hk with hk'
      subst hk'
      exact testBit_lor_self _ _
  · intro i1 j1 hi1 hj1 hne bi bj hbi hbj
    have hl1 : i1 < b.displays.length := by
      simpa using hi1
    have hl2 : j1 < b.displays.length := by
      simpa using hj1
    by_cases e1 : i1 = i
    · subst e1
      rw [List.getElem_set_self] at hbi
      rw [List.getElem_set_ne hne] at hbj
      rw [hbit] at hbi
      injection hbi with hbi'
      subst hbi'
      have hbjold : b.taken_crtcs.testBit bj = true :=
        hmem _ (List.getElem_mem hl2) bj hbj
      intro hcon
      rw [← hcon] at hbjold
      rw [hfresh] at hbjold
      exact absurd hbjold (by decide)
    · rw [List.getElem_set_ne (fun hh => e1 hh.symm)] at hbi
      by_cases e2 : j1 = i
      · subst e2
        rw [List.getElem_set_self] at hbj
        rw [hbit] at hbj
        injection hbj with hbj'
        subst hbj'
        have hbiold : b.taken_crtcs.testBit bi = true :=
          hmem _ (List.getElem_mem hl1) bi hbi
        intro hcon
        rw [hcon] at hbiold
        rw [hfresh] at hbiold
        exact absurd hbiold (by decide)
      · rw [List.getElem_set_ne (fun hh => e2 hh.symm)] at hbj
        exact hpair i1 j1 hl1 hl2 hne bi bj hbi hbj

lemma step_crtcInv (b b' : Backend) (op : DrmOp) (h : step b op = Option.some b')
    (hinv : CrtcInv b) : CrtcInv b' := by
  cases op with
  | scan hw =>
    injection h with h'
    subst h'
    unfold wlr_drm_scan_connectors
    cases hres : hw.res with
    | none => exact hinv
    | some conns =>
      dsimp only
      split
      · split
        · exact scanLoop_crtcInv conns _ 0 (crtcInv_append_new b _ hinv)
        · exact hinv
      · exact scanLoop_crtcInv conns b 0 hinv
  | modeset i str hw =>
    unfold step at h
    dsimp only at h
    cases hget : b.displays.get? i with
    | none =>
      rw [hget] at h
      injection h with h'
      subst h'
      exact hinv
    | some d =>
      rw [hget] at h
      dsimp only at h
      cases hms : wlr_drm_display_modeset d b.taken_crtcs str hw with
      | none =>
        rw [hms] at h
        cases h
      | some tup =>
        rw [hms] at h
        obtain ⟨d', taken', evs, ok⟩ := tup
        injection h with h'
        subst h'
        rcases modeset_out d _ str hw d' taken' evs ok hms with
          ⟨ht, hbit, hstate, hevs, hhist, hok⟩ | ⟨j, hfresh, ht, hbit, hstate, hevs, hhist, hok⟩
        · rw [ht]
          refine crtcInv_set b i d d' _ hget ?_ hbit hinv
          rw [hstate]
          intro hcon
          cases hcon
        · rw [ht]
          exact crtcInv_set_success b i d d' _ j hget hfresh hbit hinv
  | free i fuel =>
    unfold step at h
    dsimp only at h
    cases hget : b.displays.get? i with
    | none =>
      rw [hget] at h
      injection h with h'
      subst h'
      exact hinv
    | some d =>
      rw [hget] at h
      dsimp only at h
      cases hfr : wlr_drm_display_free d fuel with
      | none =>
        rw [hfr] at h
        cases h
      | some tup =>
        rw [hfr] at h
        obtain ⟨d', evs, r⟩ := tup
        injection h with h'
        subst h'
        obtain ⟨hst, hbit, hhist⟩ := free_out d fuel d' evs r hfr
        refine crtcInv_set b i d d' _ hget ?_ hbit hinv
        intro hcon
        rw [← hst]
        exact hcon
  | pump i =>
    injection h with h'
    subst h'
    unfold wlr_drm_event
    cases hget : b.displays.get? i with
    | none => exact hinv
    | some d =>
      exact crtcInv_set b i d _ _ hget (fun hc => hc) rfl hinv

lemma run_crtcInv : ∀ (ops : List DrmOp) (b b' : Backend), CrtcInv b →
    run b ops = Option.some b' → CrtcInv b' := by
  intro ops
  induction ops with
  | nil =>
    intro b b' hinv h
    injection h with h'
    subst h'
    exact hinv
  | cons op rest ih =>
    intro b b' hinv h
    unfold run at h
    cases hstep : step b op with
    | none =>
      rw [hstep] at h
      cases h
    | some bmid =>
      rw [hstep] at h
      exact ih bmid b' (step_crtcInv b bmid op hstep hinv) h

/-- C3 counterexample: after plug, successful modeset and unplug — a sequence
of scan and modeset operations — the CRTC mask still has 1 bit set while 0
displays are CONNECTED, so the claimed equality fails (the disconnect path
never clears the bit). -/
theorem crtc_mask_count_counterexample :
    (run backend0 opsConnectDisconnect).map
        (fun b => (popcount b.taken_crtcs, connectedCount b)) =
      Option.some (1, 0) ∧ (1 : Nat) ≠ 0 := ⟨by decide, by decide⟩

/-- C3 amended: in every state reachable by scan, modeset, display-free (and
event-pump) operations, the number of CONNECTED displays is at most the
number of set bits in the CRTC mask — equality fails after a disconnect —
every bit held by a display is set in the mask, and no CRTC bit is held by
two displays. -/
theorem crtc_mask_invariant (ops : List DrmOp) (b' : Backend)
    (h : run backend0 ops = Option.some b') : CrtcInv b' := by
  refine run_crtcInv ops backend0 b' ⟨by decide, ?_, ?_⟩ h
  · intro d hd
    exact absurd hd (by simp [backend0])
  · intro i j hi hj
    exact absurd hi (by simp [backend0])

/-- Witness for the amended C3 on the concrete plug/modeset/unplug run. -/
theorem crtc_mask_invariant_witness :
    CrtcInv ((run backend0 opsConnectDisconnect).getD backend0) :=
  crtc_mask_invariant opsConnectDisconnect
    ((run backend0 opsConnectDisconnect).getD backend0) rfl

lemma mem_of_get? {l : List Display} {i : Nat} {d : Display}
    (h : l.get? i = Option.some d) : d ∈ l := by
  obtain ⟨hi, hgd⟩ := List.get?_eq_some.mp h
  rw [← hgd]
  exact List.get_mem l i hi

lemma histOk_push (hl : List (DispState × Option DrmEvKind)) (s2 : DispState)
    (e2 : Option DrmEvKind) (hok : histOk hl = true)
    (hedge : edgeOk (histHead hl) s2 e2 = true) :
    histOk ((s2, e2) :: hl) = true := by
  cases hl with
  | nil => cases hok
  | cons a t =>
    obtain ⟨a1, a2⟩ := a
    show (edgeOk a1 s2 e2 && histOk ((a1, a2) :: t)) = true
    rw [Bool.and_eq_true]
    exact ⟨hedge, hok⟩

lemma scanStamp_histInv (d : Display) (cid : Nat) (conn : drmModeConnector)
    (hok : histOk d.hist = true) (hhd : histHead d.hist = d.state) :
    histOk (scanStamp d cid conn).hist = true ∧
      histHead (scanStamp d cid conn).hist = (scanStamp d cid conn).state := by
  unfold scanStamp
  split
  · rename_i hst
    refine ⟨histOk_push _ _ _ hok ?_, rfl⟩
    rw [hhd, hst]
    rfl
  · exact ⟨hok, hhd⟩

lemma scanDisp_histInv (d : Display) (cid : Nat) (conn : drmModeConnector)
    (hok : histOk d.hist = true) (hhd : histHead d.hist = d.state) :
    histOk (scanDisp d cid conn).1.hist = true ∧
      histHead (scanDisp d cid conn).1.hist = (scanDisp d cid conn).1.state := by
  obtain ⟨sok, shd⟩ := scanStamp_histInv d cid conn hok hhd
  unfold scanDisp
  split
  · rename_i hcond
    refine ⟨histOk_push _ _ _ sok ?_, rfl⟩
    rw [shd, hcond.1]
    rfl
  split
  · rename_i hcond hcond2
    refine ⟨histOk_push _ _ _ sok ?_, rfl⟩
    rw [shd, hcond2.1]
    rfl
  · exact ⟨sok, shd⟩

lemma histInv_set (b : Backend) (i : Nat) (d d' : Display) (t : Nat)
    (evs : List (Nat × DrmEvKind)) (hget : b.displays.get? i = Option.some d)
    (hok' : histOk d'.hist = true) (hhd' : histHead d'.hist = d'.state)
    (hinv : HistInv b) :
    HistInv { displays := b.displays.set i d', taken_crtcs := t, events := evs } := by
  intro d0 hd0
  rcases List.mem_or_eq_of_mem_set hd0 with hm | he
  · exact hinv d0 hm
  · subst he
    exact ⟨hok', hhd'⟩

lemma histInv_append_new (b : Backend) (k : Nat) (hinv : HistInv b) :
    HistInv { displays := b.displays ++ List.replicate k newDisplay,
              taken_crtcs := b.taken_crtcs, events := b.events } := by
  intro d0 hd0
  rcases List.mem_append.mp hd0 with hm | hm
  · exact hinv d0 hm
  · rw [List.eq_of_mem_replicate hm]
    exact ⟨rfl, rfl⟩

lemma scanLoop_histInv : ∀ (conns : List (Nat × Option drmModeConnector)) (b : Backend)
    (i : Nat), HistInv b → HistInv (scanLoop b i conns) := by
  intro conns
  induction conns with
  | nil =>
    intro b i h
    exact h
  | cons c rest ih =>
    intro b i h
    rcases c with ⟨cid, copt⟩
    cases copt with
    | none => exact ih b (i + 1) h
    | some conn =>
      unfold scanLoop
      cases hget : b.displays.get? i with
      | none => exact ih b (i + 1) h
      | some d =>
        refine ih _ (i + 1) ?_
        obtain ⟨hok, hhd⟩ := h d (mem_of_get? hget)
        obtain ⟨hok', hhd'⟩ := scanDisp_histInv d cid conn hok hhd
        exact histInv_set b i d _ _ _ hget hok' hhd' h

lemma step_histInv (b b' : Backend) (op : DrmOp) (hg : goodOp b op = true)
    (h : step b op = Option.some b') (hinv : HistInv b) : HistInv b' := by
  cases op with
  | scan hw =>
    injection h with h'
    subst h'
    unfold wlr_drm_scan_connectors
    cases hres : hw.res with
    | none => exact hinv
    | some conns =>
      dsimp only
      split
      · split
        · exact scanLoop_histInv conns _ 0 (histInv_append_new b _ hinv)
        · exact hinv
      · exact scanLoop_histInv conns b 0 hinv
  | modeset i str hw =>
    unfold step at h
    dsimp only at h
    unfold goodOp at hg
    dsimp only at hg
    cases hget : b.displays.get? i with
    | none =>
      rw [hget] at h
      injection h with h'
      subst h'
      exact hinv
    | some d =>
      rw [hget] at h
      rw [hget] at hg
      dsimp only at h hg
      have hN : d.state = DispState.NEEDS_MODESET := of_decide_eq_true hg
      obtain ⟨hok, hhd⟩ := hinv d (mem_of_get? hget)
      cases hms : wlr_drm_display_modeset d b.taken_crtcs str hw with
      | none =>
        rw [hms] at h
        cases h
      | some tup =>
        rw [hms] at h
        obtain ⟨d', taken', evs, ok⟩ := tup
        injection h with h'
        subst h'
        rcases modeset_out d _ str hw d' taken' evs ok hms with
          ⟨ht, hbit, hstate, hevs, hhist, hok2⟩ | ⟨j, hfresh, ht, hbit, hstate, hevs, hhist, hok2⟩
        · refine histInv_set b i d d' _ _ hget ?_ ?_ hinv
          · rw [hhist]
            refine histOk_push _ _ _ hok ?_
            rw [hhd, hN]
            rfl
          · rw [hhist, hstate]
            rfl
        · refine histInv_set b i d d' _ _ hget ?_ ?_ hinv
          · rw [hhist]
            refine histOk_push _ _ _ hok ?_
            rw [hhd, hN]
            rfl
          · rw [hhist, hstate]
            rfl
  | free i fuel =>
    unfold step at h
    dsimp only at h
    cases hget : b.displays.get? i with
    | none =>
      rw [hget] at h
      injection h with h'
      subst h'
      exact hinv
    | some d =>
      rw [hget] at h
      dsimp only at h
      cases hfr : wlr_drm_display_free d fuel with
      | none =>
        rw [hfr] at h
        cases h
      | some tup =>
        rw [hfr] at h
        obtain ⟨d', evs, r⟩ := tup
        injection h with h'
        subst h'
        obtain ⟨hok, hhd⟩ := hinv d (mem_of_get? hget)
        obtain ⟨hst, hbit, hhist⟩ := free_out d fuel d' evs r hfr
        refine histInv_set b i d d' _ _ hget ?_ ?_ hinv
        · rw [hhist]
          exact hok
        · rw [hhist, hst]
          exact hhd
  | pump i =>
    injection h with h'
    subst h'
    unfold wlr_drm_event
    cases hget : b.displays.get? i with
    | none => exact hinv
    | some d =>
      obtain ⟨hok, hhd⟩ := hinv d (mem_of_get? hget)
      exact histInv_set b i d _ _ _ hget hok hhd hinv

lemma run_histInv : ∀ (ops : List DrmOp) (b b' : Backend), HistInv b →
    GuidedB b ops = true → run b ops = Option.some b' → HistInv b' := by
  intro ops
  induction ops with
  | nil =>
    intro b b' hinv hg h
    injection h with h'
    subst h'
    exact hinv
  | cons op rest ih =>
    intro b b' hinv hg h
    unfold GuidedB at hg
    rw [Bool.and_eq_true] at hg
    obtain ⟨hg1, hg2⟩ := hg
    unfold run at h
    cases hstep : step b op with
    | none =>
      rw [hstep] at h
      cases h
    | some bmid =>
      rw [hstep] at h
      rw [hstep] at hg2
      exact ih bmid b' (step_histInv b bmid op hg1 hstep hinv) hg2 h

/-- C5 counterexample: a sequence of scan and modeset operations after which
display 0's recorded state history is not a walk of the §4.3 graph — the
final modeset moves it DISCONNECTED → CONNECTED, an edge the claim forbids. -/
theorem state_walk_counterexample :
    (run backend0 opsReconnect).map
        (fun b => b.displays.map (fun d => histOk d.hist)) =
      Option.some [false] := by decide

/-- C5 amended: provided every modeset is invoked on a display in state
NEEDS_MODESET (the call discipline the ADD event induces), every display's
state only ever changes along the edges INVALID→DISCONNECTED,
DISCONNECTED→NEEDS_MODESET (ADD), NEEDS_MODESET→CONNECTED,
NEEDS_MODESET→DISCONNECTED (REM) and CONNECTED→DISCONNECTED (REM): each
display's recorded history is a walk of that graph. -/
theorem state_walk_via_guided_ops (ops : List DrmOp) (b' : Backend)
    (hg : GuidedB backend0 ops = true) (h : run backend0 ops = Option.some b') :
    ∀ d ∈ b'.displays, histOk d.hist = true :=
  fun d hd =>
    (run_histInv ops backend0 b'
      (fun d0 hd0 => absurd hd0 (by simp [backend0])) hg h d hd).1

/-- Witness for the amended C5 on the guided plug/modeset/unplug run. -/
theorem state_walk_via_guided_ops_witness :
    histOk (((run backend0 opsConnectDisconnect).getD backend0).displays.headD
      newDisplay).hist = true := by
  have h := state_walk_via_guided_ops opsConnectDisconnect
    ((run backend0 opsConnectDisconnect).getD backend0) (by decide) rfl
  exact h _ (by decide)

end Drm
